import Mathlib

/-
Verification development for the elevation-ruler module.

The module augments a measurement ruler with elevation-aware distance
calculation.  The definitions below are a shallow embedding of the
JavaScript source (src/unnamed/part_000 and src/scripts/util.js):

* JavaScript floating-point numbers are modelled by real numbers; the one
  place where a non-finite value (NaN) can arise inside the modelled code
  is the division by `distance` in ProjectElevatedPoint, which in IEEE
  arithmetic yields NaN exactly when `distance = 0` (in that case both
  numerators are `height * 0 = 0`, so no infinity can arise).  A NaN
  result is modelled by `none : Option PIXIPoint`.
* JavaScript arrays of integers are modelled by `List Int`; `push` is
  append, `pop` is `dropLast` (on an empty array `pop` returns undefined
  and leaves the array empty, which `dropLast` models exactly).
* The host objects that the module mutates (the ruler waypoint list, the
  `active` flag of `canvas.controls.ruler`) are not part of src/; where
  they decide a claim they are modelled from the spec and carry a doc
  comment saying so.
-/

/-- A planar point, as constructed by `new PIXI.Point(x, y)` in the source. -/
@[ext] structure PIXIPoint where
  x : ℝ
  y : ℝ

noncomputable section

/-- `Math.hypot a b = sqrt (a^2 + b^2)` on finite arguments. -/
def hypot (a b : ℝ) : ℝ := Real.sqrt (a ^ 2 + b ^ 2)

/-- Euclidean length of the segment from `A` to `B`.
Inside `ProjectElevatedPoint` the source computes it as
`Math.hypot(dy, dx)` (line 101).  Modelled from the spec: the host class
`Ray` exposes the same Euclidean length as `ray.distance`. -/
def planarDist (A B : PIXIPoint) : ℝ := hypot (B.y - A.y) (B.x - A.x)

/-- Embedding of `ProjectElevatedPoint` (src/unnamed/part_000 lines 98-105):

    const dx = B.x - A.x;
    const dy = B.y - A.y;
    const distance = Math.hypot(dy, dx);
    const projected_x = ((height * (B.y - A.y)) / distance) + B.x;
    const projected_y = ((height * (B.x - A.x)) / distance) + B.y;
    return new PIXI.Point(projected_x, projected_y);

The `if distance = 0` branch encodes the IEEE semantics of the division:
when `distance = 0` (i.e. A and B coincide) both numerators are
`height * 0 = 0` and `0 / 0` is NaN, so every coordinate of the result is
NaN; this is the `none` case.  Otherwise all operations stay within the
finite reals and the source computes the point shown. -/
def ProjectElevatedPoint (A B : PIXIPoint) (height : ℝ) : Option PIXIPoint :=
  let dx := B.x - A.x
  let dy := B.y - A.y
  let distance := hypot dy dx
  if distance = 0 then none
  else some ⟨height * (B.y - A.y) / distance + B.x, height * (B.x - A.x) / distance + B.y⟩

/-- The displacement vector from `Q` to `P` (componentwise `P - Q`). -/
def vecSub (P Q : PIXIPoint) : PIXIPoint := ⟨P.x - Q.x, P.y - Q.y⟩

/-- Planar cross product of two vectors; it vanishes exactly when the two
vectors are collinear. -/
def cross2 (u v : PIXIPoint) : ℝ := u.x * v.y - u.y * v.x

/-- One iteration input of the segment loop of `elevationRulerMeasure`
(src/unnamed/part_000 lines 136-154): the waypoint index `idx` (used to
address the label at `this.labels.children[idx]`), the segment origin and
destination, and the elevation
`this.elevation_increments[idx + 1] * gridDistance * grid` computed at
line 144. -/
structure SegInput where
  idx : Nat
  origin : PIXIPoint
  dest : PIXIPoint
  elev : ℝ

/-- An entry pushed onto `elevation_segments` at line 153: the elevated ray
from `origin` to the projected destination (`none` when the projection
produced NaN coordinates). -/
structure ElevSeg where
  idx : Nat
  origin : PIXIPoint
  elevDest : Option PIXIPoint

/-- JavaScript `x < c` where `x` may be NaN (`none`): every comparison with
NaN is false. -/
def jsLt (x : Option ℝ) (c : ℝ) : Bool :=
  match x with
  | none => false
  | some v => if v < c then true else false

/-- The suppression test of line 148: the length of the elevated ray is
below 10.  A NaN length (coincident points under projection) compares
false, so such a segment is not suppressed. -/
def suppressSeg (s : SegInput) : Bool :=
  jsLt (Option.map (planarDist s.origin) (ProjectElevatedPoint s.origin s.dest s.elev)) 10

/-- The elevated segment pushed for a kept input. -/
def mkElevSeg (s : SegInput) : ElevSeg :=
  ⟨s.idx, s.origin, ProjectElevatedPoint s.origin s.dest s.elev⟩

/-- Embedding of the segment-construction loop of `elevationRulerMeasure`
(src/unnamed/part_000 lines 134-154).  Returns
`(segments, elevation_segments, hidden)` where `segments` are the retained
original segments, `elevation_segments` the retained elevation-adjusted
segments later passed to `canvas.grid.measureDistances`, and `hidden` the
indices whose labels are set invisible (`label.visible = false`) before
`continue` skips to the next segment. -/
def measureSegmentLoop : List SegInput → List SegInput × List ElevSeg × List Nat
  | [] => ([], [], [])
  | s :: rest =>
    let elevated_dest := ProjectElevatedPoint s.origin s.dest s.elev
    let elevatedDistance := Option.map (planarDist s.origin) elevated_dest
    let tail := measureSegmentLoop rest
    if jsLt elevatedDistance 10 then (tail.1, tail.2.1, s.idx :: tail.2.2)
    else (s :: tail.1, ⟨s.idx, s.origin, elevated_dest⟩ :: tail.2.1, tail.2.2)

end

/-- One step of the reduce at src/unnamed/part_000 line 115:
`(a, b) => a == 0 && b == 0` with initial accumulator `true`.  The
accumulator is always a boolean (the initial value is `true` and `&&` of
the two loose comparisons is a boolean), and JavaScript loose equality
converts a boolean for the comparison with `0`: `true == 0` is false and
`false == 0` is true, i.e. `(a == 0)` is `!a`. -/
def reduceAllZeroStep (a : Bool) (b : Int) : Bool := (!a) && (b == 0)

/-- `this.elevation_increments.reduce((a, b) => a == 0 && b == 0, true)`
(line 115). -/
def elevationZeroReduce (incs : List Int) : Bool :=
  incs.foldl reduceAllZeroStep true

/-- The fast-path guard of `elevationRulerMeasure` (lines 113-116):
`!this.destination_elevation_increment && (!this.elevation_increments || reduce)`.
An integer is falsy exactly when it is 0; `this.elevation_increments` is
always an array (initialised at definition and reset by clear), hence
truthy, so the `!this.elevation_increments` disjunct is always false and
the guard reduces to the conjunction below. -/
def elevationRulerFastPath (incs : List Int) (destInc : Int) : Bool :=
  (destInc == 0) && elevationZeroReduce incs

/-- The branch structure of `elevationRulerMeasure` (lines 108-119): if the
fast-path guard holds the wrapped (non-elevation) measure result is
returned unchanged, otherwise the elevation-adjusted path runs. -/
def elevationRulerMeasure {α : Type} (wrappedResult elevatedResult : α)
    (incs : List Int) (destInc : Int) : α :=
  if elevationRulerFastPath incs destInc then wrappedResult else elevatedResult

/-- The per-ruler session state touched by the module:
`elevation_increments` and `destination_elevation_increment` are the two
fields the module attaches to the ruler (lines 28-42); `waypoints` is the
number of committed waypoints held by the host ruler.
Modelled from the spec: the host waypoint list itself is not in src/; per
the spec it grows by one on each committed waypoint and shrinks by one on
removal. -/
structure RulerState where
  elevation_increments : List Int
  destination_elevation_increment : Int
  waypoints : Nat

/-- `elevationRulerClear` (lines 213-232): reset the two module fields. -/
def elevationRulerClear (s : RulerState) : RulerState :=
  { s with elevation_increments := [], destination_elevation_increment := 0 }

/-- `elevationRulerAddWaypoint` (lines 241-248): push the pending increment
and reset it.  The wrapped host call is modelled separately. -/
def elevationRulerAddWaypoint (s : RulerState) : RulerState :=
  { s with
    elevation_increments := s.elevation_increments ++ [s.destination_elevation_increment],
    destination_elevation_increment := 0 }

/-- `elevationRulerRemoveWaypoint` (lines 251-258): pop the last increment
(`Array.pop` on an empty array returns undefined and leaves the array
empty, modelled by `dropLast`) and reset the pending increment.  The
wrapped host call is modelled separately. -/
def elevationRulerRemoveWaypoint (s : RulerState) : RulerState :=
  { s with
    elevation_increments := s.elevation_increments.dropLast,
    destination_elevation_increment := 0 }

/-- Modelled from the spec: the wrapped host `_addWaypoint` commits one
waypoint. -/
def hostAddWaypoint (s : RulerState) : RulerState :=
  { s with waypoints := s.waypoints + 1 }

/-- Modelled from the spec: the wrapped host `_removeWaypoint` removes the
last committed waypoint (none when there is none). -/
def hostRemoveWaypoint (s : RulerState) : RulerState :=
  { s with waypoints := s.waypoints - 1 }

/-- The two session transitions quantified over by the parity claim. -/
inductive RulerOp where
  | add
  | remove

/-- One add-waypoint or remove-waypoint transition: the module function
followed by the wrapped host update. -/
def applyOp (s : RulerState) : RulerOp → RulerState
  | RulerOp.add => hostAddWaypoint (elevationRulerAddWaypoint s)
  | RulerOp.remove => hostRemoveWaypoint (elevationRulerRemoveWaypoint s)

/-- The cleared session state: `elevationRulerClear` empties the two module
fields, and (modelled from the spec) the wrapped host clear discards all
committed waypoints. -/
def clearedState : RulerState := ⟨[], 0, 0⟩

/-- The invariant carried through the add/remove induction: increments and
waypoints stay in bijection, every stored increment is zero (only
add/remove transitions occur, and both reset the pending increment), and
the pending increment is zero. -/
def sessionInvariant (s : RulerState) : Prop :=
  s.elevation_increments.length = s.waypoints ∧
  (∀ x ∈ s.elevation_increments, x = 0) ∧
  s.destination_elevation_increment = 0

/-- `changeElevation` (lines 47-54): add the signed delta to the pending
destination increment. -/
def changeElevation (s : RulerState) (elevation_increment : Int) : RulerState :=
  { s with
    destination_elevation_increment := s.destination_elevation_increment + elevation_increment }

/-- The object found at `canvas.controls.ruler`.
Modelled from the spec: `active` is the host flag consulted by the
existence guard; the module state lives on the same object. -/
structure RulerControls where
  active : Bool
  st : RulerState

/-- `incrementElevation` (lines 260-265): no-op unless a ruler exists
(`none` models an absent ruler) and is active; otherwise
`ruler.changeElevation(1)`. -/
def incrementElevation : Option RulerControls → Option RulerControls
  | none => none
  | some ruler =>
    if ruler.active then some { ruler with st := changeElevation ruler.st 1 } else some ruler

/-- `decrementElevation` (lines 267-272): no-op unless a ruler exists and
is active; otherwise `ruler.changeElevation(-1)`. -/
def decrementElevation : Option RulerControls → Option RulerControls
  | none => none
  | some ruler =>
    if ruler.active then some { ruler with st := changeElevation ruler.st (-1) } else some ruler

/-- The free identifiers read by `_getSegmentElevationLabel` from its
enclosing scopes.  Neither `segmentDistance` nor `totalDistance` is
declared anywhere in the module (the function parameters are named
`segmentElevationIncrement` and `totalElevationIncrement`), so in the
module scope both are absent; reading an absent identifier in an ES
module throws a ReferenceError, modelled by `none`. -/
structure LabelScope where
  segmentDistance : Option ℚ
  totalDistance : Option ℚ

/-- The actual scope of the module: neither free identifier is declared. -/
def moduleLabelScope : LabelScope := ⟨none, none⟩

/-- `Math.round(x * 100) / 100` followed by JavaScript number-to-string
conversion of the resulting hundredths value (`Math.round` rounds half
toward positive infinity, which is Mathlib round). -/
def jsRound2String (x : ℚ) : String :=
  let k : Int := round (x * 100)
  let sign : String := if k < 0 then ("-") else ("")
  let n : Nat := k.natAbs
  let ip : Nat := n / 100
  let fr : Nat := n % 100
  if fr = 0 then sign ++ toString ip
  else if fr % 10 = 0 then sign ++ toString ip ++ (".") ++ toString (fr / 10)
  else if fr < 10 then sign ++ toString ip ++ (".0") ++ toString fr
  else sign ++ toString ip ++ (".") ++ toString fr

/-- Embedding of `_getSegmentElevationLabel` (src/unnamed/part_000 lines
64-83).  `gridUnits` is the host value `canvas.scene.data.gridUnits`.  The
template literal at line 72 reads the free identifier `segmentDistance`,
and the one at line 77 reads `totalDistance`; in the module scope
(`moduleLabelScope`) both reads throw, modelled by `Except.error`. -/
def _getSegmentElevationLabel (scope : LabelScope) (gridUnits : String)
    (segmentElevationIncrement totalElevationIncrement : ℚ) (isTotal : Bool) :
    Except String String :=
  let segmentArrow : String :=
    if segmentElevationIncrement > 0 then ("↑")
    else if segmentElevationIncrement < 0 then ("↓")
    else ("")
  match scope.segmentDistance with
  | none => Except.error ("ReferenceError: segmentDistance is not defined")
  | some segmentDistance =>
    let label := segmentArrow ++ jsRound2String segmentDistance ++ (" ") ++ gridUnits
    if isTotal then
      let totalArrow : String :=
        if totalElevationIncrement > 0 then ("↑")
        else if totalElevationIncrement < 0 then ("↓")
        else ("")
      match scope.totalDistance with
      | none => Except.error ("ReferenceError: totalDistance is not defined")
      | some totalDistance =>
        Except.ok (label ++ (" [") ++ totalArrow ++ jsRound2String totalDistance ++ (" ")
          ++ gridUnits ++ ("]"))
    else Except.ok label

/- ------------------------------------------------------------------ -/
/- Theorems                                                            -/
/- ------------------------------------------------------------------ -/

/-- Helper: evaluate `hypot` when the sum of squares is a known square. -/
theorem hypot_eq (a b c : ℝ) (hc : 0 ≤ c) (h : a ^ 2 + b ^ 2 = c ^ 2) : hypot a b = c := by
  rw [hypot, h, Real.sqrt_sq hc]

/-- Helper: the base length is nonzero for distinct endpoints. -/
theorem hypot_pos_of_ne {A B : PIXIPoint} (h : A ≠ B) : 0 < hypot (B.y - A.y) (B.x - A.x) := by
  rw [hypot]
  apply Real.sqrt_pos.mpr
  have hxy : B.x - A.x ≠ 0 ∨ B.y - A.y ≠ 0 := by
    by_contra hc
    push_neg at hc
    obtain ⟨hx, hy⟩ := hc
    exact h (by ext <;> linarith)
  rcases hxy with hx | hy
  · have h1 : 0 < (B.x - A.x) ^ 2 := (sq_nonneg _).lt_of_ne (Ne.symm (pow_ne_zero 2 hx))
    have h2 : 0 ≤ (B.y - A.y) ^ 2 := sq_nonneg _
    linarith
  · have h1 : 0 < (B.y - A.y) ^ 2 := (sq_nonneg _).lt_of_ne (Ne.symm (pow_ne_zero 2 hy))
    have h2 : 0 ≤ (B.x - A.x) ^ 2 := sq_nonneg _
    linarith

/-- C1: the claim states that for every pair of distinct points and every
height the planar distance from `A` to `ProjectElevatedPoint A B height`
equals `sqrt(|AB|^2 + height^2)`.  The code offsets `B` by
`(h*dy/d, h*dx/d)`, which is not perpendicular to `A -> B`, so the claim
fails: at `A = (0,0)`, `B = (3,4)`, `height = 5` the code produces `(7,7)`
at distance `sqrt 98` from `A`, whereas the slant distance is
`sqrt 50`.  The axis-aligned scenario of the claim
(`A=(0,0), B=(100,0), height=75`, distance `125`) does hold, because there
the cross term vanishes. -/
theorem projectElevatedPoint_slant_distance_bug :
    ProjectElevatedPoint ⟨0, 0⟩ ⟨3, 4⟩ 5 = some ⟨7, 7⟩ ∧
    planarDist ⟨0, 0⟩ ⟨7, 7⟩ ≠ Real.sqrt (planarDist ⟨0, 0⟩ ⟨3, 4⟩ ^ 2 + 5 ^ 2) ∧
    ProjectElevatedPoint ⟨0, 0⟩ ⟨100, 0⟩ 75 = some ⟨100, 75⟩ ∧
    planarDist ⟨0, 0⟩ ⟨100, 75⟩ = Real.sqrt (planarDist ⟨0, 0⟩ ⟨100, 0⟩ ^ 2 + 75 ^ 2) := by
  have h34 : hypot ((4 : ℝ) - 0) ((3 : ℝ) - 0) = 5 :=
    hypot_eq _ _ 5 (by norm_num) (by norm_num)
  have h100 : hypot ((0 : ℝ) - 0) ((100 : ℝ) - 0) = 100 :=
    hypot_eq _ _ 100 (by norm_num) (by norm_num)
  refine ⟨?_, ?_, ?_, ?_⟩
  · simp only [ProjectElevatedPoint, h34]
    rw [if_neg (by norm_num)]
    norm_num
  · have hL : planarDist ⟨0, 0⟩ ⟨7, 7⟩ = Real.sqrt 98 := by
      simp only [planarDist, hypot]
      norm_num
    have hR : planarDist ⟨0, 0⟩ ⟨3, 4⟩ = 5 := by
      simp only [planarDist]
      exact h34
    rw [hL, hR]
    intro hEq
    have h5050 : (5 : ℝ) ^ 2 + 5 ^ 2 = 50 := by norm_num
    rw [h5050] at hEq
    have := (Real.sqrt_inj (by norm_num) (by norm_num)).mp hEq
    norm_num at this
  · simp only [ProjectElevatedPoint, h100]
    rw [if_neg (by norm_num)]
    norm_num
  · have hL : planarDist ⟨0, 0⟩ ⟨100, 75⟩ = Real.sqrt 15625 := by
      simp only [planarDist, hypot]
      norm_num
    have hR : planarDist ⟨0, 0⟩ ⟨100, 0⟩ = 100 := by
      simp only [planarDist]
      exact h100
    rw [hL, hR]
    norm_num

/-- C2: the claim states that whenever every committed increment and the
pending increment are zero, `elevationRulerMeasure` returns the wrapped
result.  The reduce at line 115 compares its boolean accumulator loosely
with 0, so on the all-zero singleton list `[0]` it evaluates to `false`
(`true == 0` is false) and the guard fails: with pending increment 0 the
code takes the elevation-adjusted path instead of returning the wrapped
result. -/
theorem elevationRulerMeasure_fast_path_bug :
    (([0] : List Int).all (fun b => b == 0)) = true ∧
    ((0 : Int) == 0) = true ∧
    elevationRulerFastPath [0] 0 = false ∧
    elevationRulerMeasure 1 2 [0] 0 = 2 := by decide

/-- C3 counterexample: the claim quantifies over all points, including
coincident ones; at `A = B = (0,0)` with height 0 the division is `0 / 0`,
every coordinate of the result is NaN (modelled `none`), and the result is
not `B`. -/
theorem projectElevatedPoint_zero_height_coincident_cex :
    ProjectElevatedPoint ⟨0, 0⟩ ⟨0, 0⟩ 0 ≠ some ⟨0, 0⟩ := by
  have h0 : hypot (0 : ℝ) 0 = 0 := by
    simp [hypot, Real.sqrt_zero]
  simp [ProjectElevatedPoint, h0]

/-- C3 (amended): for all pairs of distinct points `A` and `B`,
`ProjectElevatedPoint A B 0 = B` exactly; in the scenario `A = (0,0)`,
`B = (100,0)`, height 0 the projected point is `(100,0)` and the distance
is 100. -/
theorem projectElevatedPoint_zero_height (A B : PIXIPoint) (h : A ≠ B) :
    ProjectElevatedPoint A B 0 = some B ∧
    ProjectElevatedPoint ⟨0, 0⟩ ⟨100, 0⟩ 0 = some ⟨100, 0⟩ ∧
    planarDist ⟨0, 0⟩ ⟨100, 0⟩ = 100 := by
  have h100 : hypot ((0 : ℝ) - 0) ((100 : ℝ) - 0) = 100 :=
    hypot_eq _ _ 100 (by norm_num) (by norm_num)
  refine ⟨?_, ?_, ?_⟩
  · have hd := hypot_pos_of_ne h
    simp only [ProjectElevatedPoint]
    rw [if_neg (ne_of_gt hd)]
    simp
  · simp only [ProjectElevatedPoint, h100]
    rw [if_neg (by norm_num)]
    norm_num
  · simp only [planarDist]
    exact h100

/-- Witness for C3: the amended theorem applied at the concrete scenario
input, with the distinctness hypothesis discharged there. -/
theorem projectElevatedPoint_zero_height_witness :
    ProjectElevatedPoint ⟨0, 0⟩ ⟨100, 0⟩ 0 = some ⟨100, 0⟩ :=
  (projectElevatedPoint_zero_height ⟨0, 0⟩ ⟨100, 0⟩
    (by intro hEq; have := congrArg PIXIPoint.x hEq; norm_num at this)).1

/-- Helper: the session invariant is preserved by one add/remove step. -/
theorem sessionInvariant_applyOp {s : RulerState} (h : sessionInvariant s) (op : RulerOp) :
    sessionInvariant (applyOp s op) := by
  obtain ⟨hlen, hall, hdest⟩ := h
  cases op with
  | add =>
    refine ⟨?_, ?_, rfl⟩
    · simp [applyOp, hostAddWaypoint, elevationRulerAddWaypoint, hlen]
    · intro x hx
      simp only [applyOp, hostAddWaypoint, elevationRulerAddWaypoint, List.mem_append,
        List.mem_singleton] at hx
      rcases hx with hx | hx
      · exact hall x hx
      · rw [hx, hdest]
  | remove =>
    refine ⟨?_, ?_, rfl⟩
    · simp [applyOp, hostRemoveWaypoint, elevationRulerRemoveWaypoint,
        List.length_dropLast, hlen]
    · intro x hx
      simp only [applyOp, hostRemoveWaypoint, elevationRulerRemoveWaypoint] at hx
      exact hall x ((List.dropLast_sublist _).subset hx)

/-- Helper: the session invariant holds after any add/remove sequence from
the cleared state. -/
theorem sessionInvariant_foldl (ops : List RulerOp) {s : RulerState} (h : sessionInvariant s) :
    sessionInvariant (ops.foldl applyOp s) := by
  induction ops generalizing s with
  | nil => exact h
  | cons op rest ih => exact ih (sessionInvariant_applyOp h op)

/-- Helper: a list of zeros has first element zero (when present). -/
theorem headD_zero_of_all_zero {l : List Int} (h : ∀ x ∈ l, x = 0) : l.head?.getD 0 = 0 := by
  cases l with
  | nil => rfl
  | cons a t => simpa using h a (by simp)

/-- C4: starting from the cleared state, after any sequence of add/remove
transitions the increment list has exactly one entry per committed
waypoint and its first entry (when present) is 0; moreover add-waypoint
appends the pending increment and resets it to 0, and remove-waypoint
drops the last entry and resets the pending increment to 0. -/
theorem elevationRuler_increment_waypoint_parity (ops : List RulerOp) :
    ((ops.foldl applyOp clearedState).elevation_increments.length
      = (ops.foldl applyOp clearedState).waypoints) ∧
    ((ops.foldl applyOp clearedState).elevation_increments.head?.getD 0 = 0) ∧
    (∀ s : RulerState, elevationRulerAddWaypoint s =
      { s with
        elevation_increments := s.elevation_increments ++ [s.destination_elevation_increment],
        destination_elevation_increment := 0 }) ∧
    (∀ s : RulerState, elevationRulerRemoveWaypoint s =
      { s with
        elevation_increments := s.elevation_increments.dropLast,
        destination_elevation_increment := 0 }) := by
  have hinv : sessionInvariant (ops.foldl applyOp clearedState) :=
    sessionInvariant_foldl ops (by refine ⟨rfl, ?_, rfl⟩; intro x hx; cases hx)
  obtain ⟨hlen, hall, _⟩ := hinv
  exact ⟨hlen, headD_zero_of_all_zero hall, fun s => rfl, fun s => rfl⟩

/-- Helper: one unfolding of the measure segment loop through the
suppression predicate. -/
theorem measureSegmentLoop_cons (s : SegInput) (rest : List SegInput) :
    measureSegmentLoop (s :: rest) =
      if suppressSeg s then
        ((measureSegmentLoop rest).1, (measureSegmentLoop rest).2.1,
          s.idx :: (measureSegmentLoop rest).2.2)
      else (s :: (measureSegmentLoop rest).1,
        mkElevSeg s :: (measureSegmentLoop rest).2.1,
        (measureSegmentLoop rest).2.2) := rfl

/-- C5: the segment loop of `elevationRulerMeasure` keeps exactly the
segments whose elevation-adjusted length is not below 10: the retained
original segments are the filter of the inputs by the negated suppression
test, the elevation segments passed to the distance measurer are the same
filter, and the labels set invisible are exactly those of the suppressed
segments; segments after a suppressed one are still processed (they appear
in the filter according to their own test alone). -/
theorem elevationRulerMeasure_suppresses_short_segments (xs : List SegInput) :
    (measureSegmentLoop xs).1 = xs.filter (fun s => !suppressSeg s) ∧
    (measureSegmentLoop xs).2.1 = (xs.filter (fun s => !suppressSeg s)).map mkElevSeg ∧
    (measureSegmentLoop xs).2.2 = (xs.filter (fun s => suppressSeg s)).map SegInput.idx := by
  induction xs with
  | nil => exact ⟨rfl, rfl, rfl⟩
  | cons s rest ih =>
    obtain ⟨ih1, ih2, ih3⟩ := ih
    rw [measureSegmentLoop_cons]
    by_cases hs : suppressSeg s
    · simp [hs, List.filter_cons, ih1, ih2, ih3]
    · simp [hs, List.filter_cons, ih1, ih2, ih3]

/-- C6: the claim states that on coincident inputs `A = B = (0,0)` with
height 50 the projection does not produce NaN and falls back to the
identity.  The code has no guard: the divisor `Math.hypot(0,0)` is 0, both
coordinates are `0 / 0 = NaN` (modelled `none`), and in particular the
result is not the coincident point. -/
theorem projectElevatedPoint_coincident_nan :
    ProjectElevatedPoint ⟨0, 0⟩ ⟨0, 0⟩ 50 = none ∧
    (none : Option PIXIPoint) ≠ some ⟨0, 0⟩ := by
  constructor
  · have h0 : hypot (0 : ℝ) 0 = 0 := by
      simp [hypot, Real.sqrt_zero]
    simp [ProjectElevatedPoint, h0]
  · exact Option.noConfusion

/-- C7: the claim states that `A -> ProjectElevatedPoint A B h` is
collinear with `A -> B` only when `h = 0`, and that negating `h` mirrors
the result across line `A B`.  On the diagonal segment `A = (0,0)`,
`B = (1,1)` with `h = 1` the code places the projected point at
`(1/sqrt 2 + 1, 1/sqrt 2 + 1)`, which lies on the line through `A` and `B`
(the cross product of the two direction vectors vanishes) even though the
height 1 is nonzero, refuting the claim. -/
theorem projectElevatedPoint_direction_bug :
    ProjectElevatedPoint ⟨0, 0⟩ ⟨1, 1⟩ 1 =
      some ⟨1 / Real.sqrt 2 + 1, 1 / Real.sqrt 2 + 1⟩ ∧
    cross2 (vecSub ⟨1, 1⟩ ⟨0, 0⟩)
      (vecSub ⟨1 / Real.sqrt 2 + 1, 1 / Real.sqrt 2 + 1⟩ ⟨0, 0⟩) = 0 ∧
    (1 : ℝ) ≠ 0 := by
  have h2 : hypot ((1 : ℝ) - 0) ((1 : ℝ) - 0) = Real.sqrt 2 := by
    rw [hypot]
    norm_num
  have h2pos : (0 : ℝ) < Real.sqrt 2 := Real.sqrt_pos.mpr (by norm_num)
  refine ⟨?_, ?_, by norm_num⟩
  · simp only [ProjectElevatedPoint, h2]
    rw [if_neg (ne_of_gt h2pos)]
    norm_num
  · simp only [cross2, vecSub]
    ring

/-- C8: the claim states that `_getSegmentElevationLabel` formats its
parameters into a glyph-plus-rounded-distance string.  The template
literal at line 72 reads the identifier `segmentDistance`, which is not
declared anywhere in the module (the parameter is named
`segmentElevationIncrement`), so every call throws a ReferenceError
instead of returning a label; evaluated here at increments 5, 5 with
`isTotal = false` and grid units "ft". -/
theorem getSegmentElevationLabel_reference_error :
    _getSegmentElevationLabel moduleLabelScope ("ft") 5 5 false =
      Except.error ("ReferenceError: segmentDistance is not defined") := rfl

/-- C9: `incrementElevation` and `decrementElevation` are no-ops when the
ruler is absent or inactive, and on an active ruler change exactly the
pending destination increment by +1 and -1 respectively, leaving the
increment list, the waypoints, and the active flag unchanged. -/
theorem incrementElevation_guarded :
    incrementElevation none = none ∧
    decrementElevation none = none ∧
    (∀ r : RulerControls, r.active = false →
      incrementElevation (some r) = some r ∧ decrementElevation (some r) = some r) ∧
    (∀ r : RulerControls, r.active = true →
      incrementElevation (some r) =
        some ⟨r.active, ⟨r.st.elevation_increments,
          r.st.destination_elevation_increment + 1, r.st.waypoints⟩⟩ ∧
      decrementElevation (some r) =
        some ⟨r.active, ⟨r.st.elevation_increments,
          r.st.destination_elevation_increment - 1, r.st.waypoints⟩⟩) := by
  refine ⟨rfl, rfl, ?_, ?_⟩
  · intro r h
    constructor
    · simp [incrementElevation, h]
    · simp [decrementElevation, h]
  · intro r h
    constructor
    · simp [incrementElevation, h, changeElevation]
    · simp only [decrementElevation, h, changeElevation, if_true]
      congr 1

/-- Witness for C9: the guarded theorem applied at a concrete active ruler
and a concrete inactive ruler, discharging the hypotheses there. -/
theorem incrementElevation_guarded_witness :
    incrementElevation (some ⟨true, ⟨[0], 2, 1⟩⟩) = some ⟨true, ⟨[0], 3, 1⟩⟩ ∧
    incrementElevation (some ⟨false, ⟨[0], 2, 1⟩⟩) = some ⟨false, ⟨[0], 2, 1⟩⟩ := by
  constructor
  · have h := (incrementElevation_guarded.2.2.2 ⟨true, ⟨[0], 2, 1⟩⟩ rfl).1
    simpa using h
  · exact (incrementElevation_guarded.2.2.1 ⟨false, ⟨[0], 2, 1⟩⟩ rfl).1

/-- C10: removing a waypoint with an already empty increment list is safe:
the pop is a no-op on the list (it stays empty), the pending increment is
reset to 0, and nothing else on the module state changes; the function is
total, so no error is raised. -/
theorem removeWaypoint_empty_noop (d : Int) (w : Nat) :
    elevationRulerRemoveWaypoint ⟨[], d, w⟩ = ⟨[], 0, w⟩ := rfl
